import Mathlib

/-!
Verification of the BKAM treasury-curve module
(src/modules/bkam_treasury_official.py).

The Python class BkamTreasuryCurve ingests a CSV of
(maturity date, rate) observations, keeps them in self.treasury_data as
a list sorted ascending by days-to-maturity, and answers rate queries
for target maturities by linear interpolation with clamping at the two
ends of the observed range.

Modelling conventions of this development: Python numbers are modelled
as exact rationals (the data are finite decimals parsed from text) and
Python int as ℤ/ℕ; fallible operations return Option; the CSV text is
processed as a list of characters; the reference date taken from
datetime.now() is an explicit parameter.
-/

namespace BkamTreasuryCurve

/-- Characters stripped by Python str.strip() with no argument:
ASCII space, tab, newline, carriage return, vertical tab, form feed. -/
def isPySpace (c : Char) : Bool :=
  c == ' ' || c == '\t' || c == '\n' || c == '\r' || c == '\x0b' || c == '\x0c'

/-- Python str.strip restricted to a character predicate: drop matching
characters from both ends. -/
def stripBy (p : Char → Bool) (cs : List Char) : List Char :=
  ((cs.dropWhile p).reverse.dropWhile p).reverse

/-- Python str.strip() on a character list. -/
def pyStrip (cs : List Char) : List Char :=
  stripBy isPySpace cs

/-- Python str.strip applied to the double-quote character, as in
line 85 of load_from_csv. -/
def stripQuotes (cs : List Char) : List Char :=
  stripBy (fun c => c == '"') cs

/-- Python str.split(sep) for a one-character separator: split on every
occurrence, keeping empty pieces. -/
def splitOnChar (sep : Char) : List Char → List (List Char)
  | [] => [[]]
  | c :: cs =>
    let r := splitOnChar sep cs
    if c == sep then [] :: r
    else
      match r with
      | [] => [[c]]
      | h :: t => (c :: h) :: t

/-- Numeric value of a digit string, most significant digit first. -/
def digitsToNat (ds : List Char) : ℕ :=
  ds.foldl (fun n c => 10 * n + (c.toNat - 48)) 0

/-- Components of a parsed Python float literal: mantissa sign, digits
before the point, digits after the point with their count, exponent
sign and exponent digits. -/
structure FloatParts where
  neg : Bool
  ip : ℕ
  fp : ℕ
  fplen : ℕ
  eneg : Bool
  exp : ℕ
deriving DecidableEq, Repr

/-- Numeric value of a parsed float literal. -/
def FloatParts.value (p : FloatParts) : ℚ :=
  (if p.neg then -1 else 1) * ((p.ip : ℚ) + (p.fp : ℚ) / 10 ^ p.fplen) *
    10 ^ ((if p.eneg then -1 else 1) * (p.exp : ℤ))

/-- Syntax of Python float(s): an optional sign, digits with an
optional decimal point (at least one digit overall), and an optional
exponent part.  Named special values (inf, nan) and underscore digit
separators never occur in the scraped rate strings and are not
modelled. -/
def pyFloatParse (s : List Char) : Option FloatParts :=
  let t := pyStrip s
  let neg : Bool := match t with
    | '-' :: _ => true
    | _ => false
  let u : List Char := match t with
    | '+' :: r => r
    | '-' :: r => r
    | r => r
  let ip := u.takeWhile Char.isDigit
  let u1 := u.dropWhile Char.isDigit
  let fp : List Char := match u1 with
    | '.' :: r => r.takeWhile Char.isDigit
    | _ => []
  let u2 : List Char := match u1 with
    | '.' :: r => r.dropWhile Char.isDigit
    | r => r
  if ip.isEmpty && fp.isEmpty then none
  else
    match u2 with
    | [] => some ⟨neg, digitsToNat ip, digitsToNat fp, fp.length, false, 0⟩
    | 'e' :: r =>
      let eneg : Bool := match r with
        | '-' :: _ => true
        | _ => false
      let r1 : List Char := match r with
        | '+' :: r2 => r2
        | '-' :: r2 => r2
        | r2 => r2
      let ed := r1.takeWhile Char.isDigit
      if ed.isEmpty || !(r1.dropWhile Char.isDigit).isEmpty then none
      else some ⟨neg, digitsToNat ip, digitsToNat fp, fp.length, eneg, digitsToNat ed⟩
    | 'E' :: r =>
      let eneg : Bool := match r with
        | '-' :: _ => true
        | _ => false
      let r1 : List Char := match r with
        | '+' :: r2 => r2
        | '-' :: r2 => r2
        | r2 => r2
      let ed := r1.takeWhile Char.isDigit
      if ed.isEmpty || !(r1.dropWhile Char.isDigit).isEmpty then none
      else some ⟨neg, digitsToNat ip, digitsToNat fp, fp.length, eneg, digitsToNat ed⟩
    | _ => none

/-- Model of Python float(s): parse the literal and take its numeric
value.  (A parse without an exponent part carries exponent 0, so the
value is the bare mantissa.) -/
def pyFloat (s : List Char) : Option ℚ :=
  (pyFloatParse s).map FloatParts.value

/-- Gregorian leap year, as in Python's datetime module. -/
def isLeap (y : ℕ) : Bool :=
  y % 4 == 0 && (y % 100 != 0 || y % 400 == 0)

/-- Length of a month, as in Python's datetime module. -/
def daysInMonth (y m : ℕ) : ℕ :=
  if m == 2 then (if isLeap y then 29 else 28)
  else if m == 4 || m == 6 || m == 9 || m == 11 then 30
  else 31

/-- A calendar date as produced by datetime.strptime(...).date(). -/
structure PyDate where
  year : ℕ
  month : ℕ
  day : ℕ
deriving DecidableEq, Repr

/-- Days before January 1 of the given year, counted from the epoch of
Python's date.toordinal (ordinal 1 is January 1 of year 1). -/
def daysBeforeYear (y : ℕ) : ℕ :=
  365 * (y - 1) + (y - 1) / 4 - (y - 1) / 100 + (y - 1) / 400

/-- Days of the given year that precede the first of the given month. -/
def daysBeforeMonth (y m : ℕ) : ℕ :=
  ((List.range (m - 1)).map (fun i => daysInMonth y (i + 1))).sum

/-- Python date.toordinal: proleptic Gregorian ordinal of the date. -/
def toordinal (d : PyDate) : ℕ :=
  daysBeforeYear d.year + daysBeforeMonth d.year d.month + d.day

/-- Model of datetime.strptime(s, day/month/year with slashes).date()
as used at line 97: three slash-separated all-digit fields, day and
month of one or two digits, year of at most four digits, validated as
a real calendar date (datetime accepts years 1 to 9999). -/
def strptimeDMY (cs : List Char) : Option PyDate :=
  match splitOnChar '/' cs with
  | [ds, ms, ys] =>
    if ds.isEmpty || !ds.all Char.isDigit || 2 < ds.length then none
    else if ms.isEmpty || !ms.all Char.isDigit || 2 < ms.length then none
    else if ys.isEmpty || !ys.all Char.isDigit || 4 < ys.length then none
    else
      let d := digitsToNat ds
      let m := digitsToNat ms
      let y := digitsToNat ys
      if 1 ≤ y ∧ y ≤ 9999 ∧ 1 ≤ m ∧ m ≤ 12 ∧ 1 ≤ d ∧ d ≤ daysInMonth y m then
        some ⟨y, m, d⟩
      else none
  | _ => none

/-- One entry of self.treasury_data: the dict appended at lines
105-111.  The years entry of the Python dict is derived
(days / 365.25) and reconstructed where needed; the maturity_date
entry is kept only through its source text maturity_date_str. -/
structure Point where
  maturity_date_str : String
  days : ℤ
  rate : ℚ
deriving DecidableEq, Repr

/-- Rate-string cleaning and conversion of lines 93-94: remove every
percent sign, turn every comma into a period, strip, then float(). -/
def parse_rate (cs : List Char) : Option ℚ :=
  pyFloat (pyStrip ((cs.filter (fun c => c != '%')).map
    (fun c => if c == ',' then '.' else c)))

/-- Inner try block of the row loop (lines 88-111) once the row has
been split into at least four fields: parse the rate (line 94) and the
date (line 97), either failure dropping the row via the
except/continue; compute the exact day count against the reference
date (line 100); drop already-matured rows (lines 102-103); otherwise
build the treasury_data entry (lines 105-111). -/
def parse_row (reference_date : PyDate) (parts : List (List Char)) :
    Option Point :=
  match parse_rate (parts.getD 2 []), strptimeDMY (parts.getD 0 []) with
  | some rate_value, some maturity_date =>
    if (toordinal maturity_date : ℤ) - (toordinal reference_date : ℤ) < 0 then
      none
    else
      some ⟨⟨parts.getD 0 []⟩,
        (toordinal maturity_date : ℤ) - (toordinal reference_date : ℤ),
        rate_value⟩
  | _, _ => none

/-- Body of the row loop of load_from_csv (lines 80-114) on one raw CSV
line: the parsed point, or none when the row is skipped (blank or
Total row, fewer than four fields, or a row parse_row drops). -/
def parse_line (reference_date : PyDate) (raw : List Char) : Option Point :=
  if (pyStrip raw).isEmpty then none
  else if "Total".toList.isPrefixOf (pyStrip raw) then none
  else if 4 ≤ ((splitOnChar ';' (pyStrip raw)).map
      (fun p => stripQuotes (pyStrip p))).length then
    parse_row reference_date
      ((splitOnChar ';' (pyStrip raw)).map (fun p => stripQuotes (pyStrip p)))
  else none

/-- Insertion step of a stable ascending sort by days: the new point
goes after every point whose day count does not exceed it. -/
def insertByDays (p : Point) : List Point → List Point
  | [] => [p]
  | q :: qs => if p.days < q.days then p :: q :: qs else q :: insertByDays p qs

/-- Model of self.treasury_data.sort(key days) at line 117: a stable
ascending sort (insertion sort processing rows in scrape order keeps
rows of equal day count in that order, as Python's stable sort does). -/
def sortByDays (l : List Point) : List Point :=
  l.foldl (fun acc p => insertByDays p acc) []

/-- Model of load_from_csv (lines 71-132): the value of
self.treasury_data after the call.  The content is stripped and split
on newlines, the first two header lines are skipped, each remaining
row is parsed by parse_line with failing rows dropped, and the result
is sorted ascending by days.  (When no row parses, the Python method
additionally raises and catches its own exception and returns False;
self.treasury_data is the same empty list.) -/
def load_from_csv (reference_date : PyDate) (csv_content : String) : List Point :=
  let lines := splitOnChar '\n' (pyStrip csv_content.toList)
  sortByDays ((lines.drop 2).filterMap (parse_line reference_date))

/-- Round a rational to the nearest integer with ties to even, the
rounding used by Python's round(). -/
def roundHalfEven (q : ℚ) : ℤ :=
  let f := ⌊q⌋
  if q - f < 1 / 2 then f
  else if 1 / 2 < q - f then f + 1
  else if Even f then f else f + 1

/-- Python round(x, ndigits) on an exact rational value. -/
def pyRound (ndigits : ℕ) (x : ℚ) : ℚ :=
  (roundHalfEven (x * 10 ^ ndigits) : ℚ) / 10 ^ ndigits

/-- Python int() applied to a number: truncation toward zero (tdiv is
the C-style quotient of the reduced numerator and denominator). -/
def pyIntTrunc (q : ℚ) : ℤ :=
  Int.tdiv q.num q.den

/-- Metadata dict returned by linear_interpolation next to the rate:
one constructor per dict shape built at lines 149-154, 159-164,
175-186, 144 and 190.  The presentation-only entries actual_years
(equal to actual_days / 365.25) and the formula string are derived
from the recorded fields and not repeated. -/
inductive Metadata where
  | premiereEcheance (point_used : String) (actual_days : ℤ)
  | derniereEcheance (point_used : String) (actual_days : ℤ)
  | interpolationLineaire (point_before point_after : String)
      (rate_before rate_after : ℚ) (days_before days_after : ℤ)
      (actual_days : ℤ)
  | erreur (msg : String)
deriving DecidableEq, Repr

/-- Scan of the adjacent pairs of the point list (loop at lines
167-171): the first pair with days1 ≤ target_days ≤ days2, if any. -/
def findBracket (target_days : ℤ) : List Point → Option (Point × Point)
  | p1 :: p2 :: rest =>
    if p1.days ≤ target_days ∧ target_days ≤ p2.days then some (p1, p2)
    else findBracket target_days (p2 :: rest)
  | _ => none

/-- Interpolation formula of line 173, before rounding:
r1 + (d - d1) * (r2 - r1) / (d2 - d1). -/
def interpValue (target_days : ℤ) (p1 p2 : Point) : ℚ :=
  p1.rate + ((target_days : ℚ) - (p1.days : ℚ)) * (p2.rate - p1.rate) /
    ((p2.days : ℚ) - (p1.days : ℚ))

/-- linear_interpolation (lines 134-190): with fewer than two points an
error dict; with a target at or below the first day count the first
point clamped; at or above the last day count the last point clamped;
otherwise the first bracketing adjacent pair interpolated linearly and
rounded to 4 digits. -/
def linear_interpolation (data : List Point) (target_days : ℤ) :
    Option ℚ × Metadata :=
  match data with
  | [] => (none, Metadata.erreur "Données insuffisantes")
  | [_] => (none, Metadata.erreur "Données insuffisantes")
  | p0 :: p1 :: rest =>
    if target_days ≤ p0.days then
      (some p0.rate, Metadata.premiereEcheance p0.maturity_date_str p0.days)
    else if ((p1 :: rest).getLastD p0).days ≤ target_days then
      (some ((p1 :: rest).getLastD p0).rate,
       Metadata.derniereEcheance ((p1 :: rest).getLastD p0).maturity_date_str
         ((p1 :: rest).getLastD p0).days)
    else
      match findBracket target_days (p0 :: p1 :: rest) with
      | some (q1, q2) =>
        (some (pyRound 4 (interpValue target_days q1 q2)),
         Metadata.interpolationLineaire q1.maturity_date_str q2.maturity_date_str
           q1.rate q2.rate q1.days q2.days target_days)
      | none => (none, Metadata.erreur "Point non trouvé")

/-- Result dict of get_rate_for_maturity (lines 200-205). -/
structure RateResult where
  target_years : ℚ
  target_days : ℤ
  rate : Option ℚ
  metadata : Metadata
deriving DecidableEq, Repr

/-- get_rate_for_maturity (lines 192-207): target_days is
int(target_years * 365.25), then linear interpolation. -/
def get_rate_for_maturity (data : List Point) (target_years : ℚ) : RateResult :=
  let target_days := pyIntTrunc (target_years * 365.25)
  let r := linear_interpolation data target_days
  ⟨target_years, target_days, r.1, r.2⟩

/-- Results of get_standard_maturities keyed BT2Y, BT5Y, BT10Y. -/
structure StandardResults where
  bt2y : RateResult
  bt5y : RateResult
  bt10y : RateResult
deriving DecidableEq, Repr

/-- get_standard_maturities (lines 209-225): the three standard tenor
queries at 2.0, 5.0 and 10.0 years. -/
def get_standard_maturities (data : List Point) : StandardResults :=
  ⟨get_rate_for_maturity data 2, get_rate_for_maturity data 5,
   get_rate_for_maturity data 10⟩

/-- State-passing translation of the method linear_interpolation: the
body of lines 134-190 only reads self.treasury_data and contains no
assignment to it, so the translated method returns the state it was
given, unchanged. -/
def linear_interpolation_st (s : List Point) (target_days : ℤ) :
    (Option ℚ × Metadata) × List Point :=
  (linear_interpolation s target_days, s)

/-- State-passing translation of get_rate_for_maturity (lines 192-207),
threading self.treasury_data through the call at line 198. -/
def get_rate_for_maturity_st (s : List Point) (target_years : ℚ) :
    RateResult × List Point :=
  let target_days := pyIntTrunc (target_years * 365.25)
  let r := linear_interpolation_st s target_days
  (⟨target_years, target_days, r.1.1, r.1.2⟩, r.2)

/-- State-passing translation of get_standard_maturities: the loop at
lines 221-223 runs the three standard queries in sequence, each seeing
the state left behind by the previous one. -/
def get_standard_maturities_st (s : List Point) :
    List (String × RateResult) × List Point :=
  [("BT2Y", (2 : ℚ)), ("BT5Y", (5 : ℚ)), ("BT10Y", (10 : ℚ))].foldl
    (fun acc ky =>
      let r := get_rate_for_maturity_st acc.2 ky.2
      (acc.1 ++ [(ky.1, r.1)], r.2))
    ([], s)


/-! ## Helper lemmas shared by the claim theorems -/

/-- The pair scan of the interpolation loop, started strictly to the
right of the head point, only ever selects a pair of strictly
increasing day counts: a pair of equal day counts could match only
with the target equal to both, and the scan would then already have
returned at an earlier pair. -/
theorem findBracket_days_lt :
    ∀ (l : List Point) (q p1 p2 : Point) (t : ℤ), q.days < t →
      findBracket t (q :: l) = some (p1, p2) → p1.days < p2.days := by
  intro l
  induction l with
  | nil => intro q p1 p2 t hq hfb; simp [findBracket] at hfb
  | cons r rs ih =>
    intro q p1 p2 t hq hfb
    simp only [findBracket] at hfb
    by_cases h : q.days ≤ t ∧ t ≤ r.days
    · rw [if_pos h] at hfb
      simp only [Option.some.injEq, Prod.mk.injEq] at hfb
      obtain ⟨rfl, rfl⟩ := hfb
      exact lt_of_lt_of_le hq h.2
    · rw [if_neg h] at hfb
      have hr : r.days < t := by
        rcases not_and_or.mp h with h1 | h2
        · exact absurd hq.le h1
        · exact lt_of_not_le h2
      exact ih r p1 p2 t hr hfb

/-- Membership through one insertion step of the stable sort. -/
theorem mem_insertByDays (p x : Point) :
    ∀ l : List Point, x ∈ insertByDays p l ↔ x = p ∨ x ∈ l := by
  intro l
  induction l with
  | nil => simp [insertByDays]
  | cons q qs ih =>
    by_cases h : p.days < q.days
    · simp only [insertByDays, if_pos h, List.mem_cons]
    · simp only [insertByDays, if_neg h, List.mem_cons, ih]
      tauto

/-- One insertion step preserves ascending order by day count. -/
theorem sorted_insertByDays (p : Point) :
    ∀ l : List Point, List.Sorted (fun a b : Point => a.days ≤ b.days) l →
      List.Sorted (fun a b : Point => a.days ≤ b.days) (insertByDays p l) := by
  intro l
  induction l with
  | nil => intro h; simp [insertByDays]
  | cons q qs ih =>
    intro hs
    rw [List.sorted_cons] at hs
    obtain ⟨hq, hqs⟩ := hs
    by_cases h : p.days < q.days
    · rw [insertByDays, if_pos h, List.sorted_cons]
      refine ⟨?_, ?_⟩
      · intro b hb
        rcases List.mem_cons.mp hb with rfl | hb'
        · exact h.le
        · exact h.le.trans (hq b hb')
      · rw [List.sorted_cons]; exact ⟨hq, hqs⟩
    · rw [insertByDays, if_neg h, List.sorted_cons]
      refine ⟨?_, ih hqs⟩
      intro b hb
      rcases (mem_insertByDays p b qs).mp hb with rfl | hb'
      · exact le_of_not_lt h
      · exact hq b hb'

/-- The insertion-sort fold keeps its accumulator sorted. -/
theorem sorted_foldl_insert :
    ∀ (l acc : List Point),
      List.Sorted (fun a b : Point => a.days ≤ b.days) acc →
      List.Sorted (fun a b : Point => a.days ≤ b.days)
        (l.foldl (fun acc p => insertByDays p acc) acc) := by
  intro l
  induction l with
  | nil => intro acc h; simpa using h
  | cons p ps ih =>
    intro acc h
    rw [List.foldl_cons]
    exact ih _ (sorted_insertByDays p acc h)

/-- Membership through the insertion-sort fold. -/
theorem mem_foldl_insert :
    ∀ (l acc : List Point) (x : Point),
      x ∈ l.foldl (fun acc p => insertByDays p acc) acc ↔ x ∈ acc ∨ x ∈ l := by
  intro l
  induction l with
  | nil => simp
  | cons p ps ih =>
    intro acc x
    rw [List.foldl_cons, ih, mem_insertByDays]
    simp only [List.mem_cons]
    tauto

/-- Every point built by the inner row parser has a nonnegative day
count: the filter at lines 102-103 drops matured rows. -/
theorem parse_row_days_nonneg (ref : PyDate) (parts : List (List Char))
    (p : Point) (h : parse_row ref parts = some p) : 0 ≤ p.days := by
  unfold parse_row at h
  split at h
  · split at h
    · simp at h
    · obtain rfl := Option.some.inj h
      dsimp only
      omega
  · simp at h

/-- Every point the row loop keeps has a nonnegative day count. -/
theorem parse_line_days_nonneg (ref : PyDate) (raw : List Char) (p : Point)
    (h : parse_line ref raw = some p) : 0 ≤ p.days := by
  unfold parse_line at h
  split at h
  · simp at h
  · split at h
    · simp at h
    · split at h
      · exact parse_row_days_nonneg ref _ p h
      · simp at h

/-- A list whose getLast? is some x contains x. -/
theorem mem_of_getLast?_eq {l : List Point} {x : Point}
    (h : l.getLast? = some x) : x ∈ l := by
  obtain ⟨hne, rfl⟩ := List.mem_getLast?_eq_getLast (Option.mem_def.mpr h)
  exact List.getLast_mem hne

/-- Python int() agrees with the floor on nonnegative values. -/
theorem pyIntTrunc_eq_floor (q : ℚ) (h : 0 ≤ q) : pyIntTrunc q = ⌊q⌋ := by
  rw [Rat.floor_def, pyIntTrunc]
  obtain ⟨m, hm⟩ := Int.eq_ofNat_of_zero_le (Rat.num_nonneg.mpr h)
  rw [hm]
  rfl

/-- Day count of the standard 2-year tenor. -/
theorem pyIntTrunc_2y : pyIntTrunc ((2 : ℚ) * 365.25) = 730 := by
  norm_num [pyIntTrunc]
  decide

/-- Day count of the standard 5-year tenor (note: 1826, not 1825). -/
theorem pyIntTrunc_5y : pyIntTrunc ((5 : ℚ) * 365.25) = 1826 := by
  norm_num [pyIntTrunc]
  decide

/-- Day count of the standard 10-year tenor (note: 3652, not 3650). -/
theorem pyIntTrunc_10y : pyIntTrunc ((10 : ℚ) * 365.25) = 3652 := by
  norm_num [pyIntTrunc]
  decide

/-! ## Claim theorems -/

/-- C1: on a point set of at least two points sorted ascending by day
count, a target at or below the first point's day count returns
exactly the first point's rate with the first-point method, and a
target at or above the last point's day count returns exactly the
last point's rate with the last-point method: clamping with no
extrapolation, the rate returned unmodified. -/
theorem clamp_at_bounds (data : List Point) (target_days : ℤ)
    (p0 plast : Point)
    (hhead : data.head? = some p0) (hlast : data.getLast? = some plast)
    (hlen : 2 ≤ data.length)
    (hsorted : List.Sorted (fun a b : Point => a.days < b.days) data) :
    (target_days ≤ p0.days →
      linear_interpolation data target_days =
        (some p0.rate,
         Metadata.premiereEcheance p0.maturity_date_str p0.days)) ∧
    (plast.days ≤ target_days →
      linear_interpolation data target_days =
        (some plast.rate,
         Metadata.derniereEcheance plast.maturity_date_str plast.days)) := by
  cases data with
  | nil => simp at hhead
  | cons a l =>
    cases l with
    | nil => simp at hlen
    | cons b l' =>
      simp only [List.head?_cons, Option.some.injEq] at hhead
      subst hhead
      have hl2 : (b :: l').getLast? = some plast := by
        rw [← List.getLast?_cons_cons]
        exact hlast
      have hlD : (b :: l').getLastD a = plast := by
        rw [List.getLastD_eq_getLast?, hl2]
        rfl
      have hmem : plast ∈ b :: l' := mem_of_getLast?_eq hl2
      have hab : a.days < plast.days :=
        (List.sorted_cons.mp hsorted).1 plast hmem
      constructor
      · intro ht
        simp only [linear_interpolation]
        rw [if_pos ht]
      · intro ht
        have hnot : ¬ target_days ≤ a.days :=
          not_le.mpr (lt_of_lt_of_le hab ht)
        simp only [linear_interpolation]
        rw [hlD, if_neg hnot, if_pos ht]

theorem clamp_at_bounds_witness :
    linear_interpolation [⟨"a", 730, 2.5⟩, ⟨"b", 1825, 2.75⟩] 100 =
        (some 2.5, Metadata.premiereEcheance "a" 730) ∧
    linear_interpolation [⟨"a", 730, 2.5⟩, ⟨"b", 1825, 2.75⟩] 2000 =
        (some 2.75, Metadata.derniereEcheance "b" 1825) :=
  ⟨(clamp_at_bounds [⟨"a", 730, 2.5⟩, ⟨"b", 1825, 2.75⟩] 100
      ⟨"a", 730, 2.5⟩ ⟨"b", 1825, 2.75⟩ rfl rfl (by decide) (by decide)).1
      (by decide),
   (clamp_at_bounds [⟨"a", 730, 2.5⟩, ⟨"b", 1825, 2.75⟩] 2000
      ⟨"a", 730, 2.5⟩ ⟨"b", 1825, 2.75⟩ rfl rfl (by decide) (by decide)).2
      (by decide)⟩

/-- C4 (amended): whenever the target falls strictly between the first
and the last observed day counts, the returned rate is
r1 + (targetDays - d1) * (r2 - r1) / (d2 - d1) over the adjacent
bracketing pair selected by the ascending scan, rounded to 4 (not 3)
decimal places. -/
theorem interpolation_rate_formula (data : List Point) (target_days : ℤ)
    (p0 plast q1 q2 : Point)
    (hhead : data.head? = some p0) (hlast : data.getLast? = some plast)
    (h1 : p0.days < target_days) (h2 : target_days < plast.days)
    (hfb : findBracket target_days data = some (q1, q2)) :
    linear_interpolation data target_days =
      (some (pyRound 4 (q1.rate +
          ((target_days : ℚ) - (q1.days : ℚ)) * (q2.rate - q1.rate) /
            ((q2.days : ℚ) - (q1.days : ℚ)))),
       Metadata.interpolationLineaire q1.maturity_date_str
         q2.maturity_date_str q1.rate q2.rate q1.days q2.days
         target_days) := by
  cases data with
  | nil => simp [findBracket] at hfb
  | cons a l =>
    cases l with
    | nil => simp [findBracket] at hfb
    | cons b l' =>
      simp only [List.head?_cons, Option.some.injEq] at hhead
      subst hhead
      have hl2 : (b :: l').getLast? = some plast := by
        rw [← List.getLast?_cons_cons]
        exact hlast
      have hlD : (b :: l').getLastD a = plast := by
        rw [List.getLastD_eq_getLast?, hl2]
        rfl
      have hn1 : ¬ target_days ≤ a.days := not_le.mpr h1
      have hn2 : ¬ plast.days ≤ target_days := not_le.mpr h2
      simp only [linear_interpolation]
      rw [hlD, if_neg hn1, if_neg hn2, hfb]
      rfl

theorem interpolation_rate_formula_witness :
    linear_interpolation
        [⟨"a", 730, 2.5⟩, ⟨"b", 1825, 2.75⟩, ⟨"c", 3650, 3.1⟩] 1826 =
      (some (pyRound 4 ((2.75 : ℚ) +
          (((1826 : ℤ) : ℚ) - ((1825 : ℤ) : ℚ)) * ((3.1 : ℚ) - (2.75 : ℚ)) /
            (((3650 : ℤ) : ℚ) - ((1825 : ℤ) : ℚ)))),
       Metadata.interpolationLineaire "b" "c" 2.75 3.1 1825 3650 1826) :=
  interpolation_rate_formula
    [⟨"a", 730, 2.5⟩, ⟨"b", 1825, 2.75⟩, ⟨"c", 3650, 3.1⟩] 1826
    ⟨"a", 730, 2.5⟩ ⟨"c", 3650, 3.1⟩ ⟨"b", 1825, 2.75⟩ ⟨"c", 3650, 3.1⟩
    rfl rfl (by decide) (by decide) rfl

/-- C7: on a point set sorted ascending by day count (duplicate day
counts allowed) with at least two points, whenever the interpolation
loop selects a bracketing pair after both clamping guards have failed,
that pair has strictly increasing day counts, so the division by
(d2 - d1) at line 173 is never a division by zero. -/
theorem bracket_never_degenerate (data : List Point) (target_days : ℤ)
    (p0 plast q1 q2 : Point)
    (hhead : data.head? = some p0) (hlast : data.getLast? = some plast)
    (hsorted : List.Sorted (fun a b : Point => a.days ≤ b.days) data)
    (hlen : 2 ≤ data.length)
    (h1 : p0.days < target_days) (h2 : target_days < plast.days)
    (hfb : findBracket target_days data = some (q1, q2)) :
    q1.days < q2.days := by
  cases data with
  | nil => simp at hhead
  | cons a l =>
    simp only [List.head?_cons, Option.some.injEq] at hhead
    subst hhead
    exact findBracket_days_lt l a q1 q2 target_days h1 hfb

theorem bracket_never_degenerate_witness :
    (Point.mk "a" 3 1).days < (Point.mk "b" 5 2).days :=
  bracket_never_degenerate
    [⟨"a", 3, 1⟩, ⟨"b", 5, 2⟩, ⟨"c", 5, 3⟩, ⟨"d", 10, 4⟩] 4
    ⟨"a", 3, 1⟩ ⟨"d", 10, 4⟩ ⟨"a", 3, 1⟩ ⟨"b", 5, 2⟩
    rfl rfl (by decide) (by decide) (by decide) (by decide) rfl

/-- C2 counterexample: with the single point (1825 days, 2.75), none
of the three standard queries returns 2.75 — the guard at lines
143-144 fires for any set of fewer than two points, so each query
returns the absent rate, not the point's rate. -/
theorem single_point_counterexample :
    ¬ ((get_standard_maturities [⟨"15/03/2030", 1825, 2.75⟩]).bt2y.rate =
          some (2.75 : ℚ) ∧
       (get_standard_maturities [⟨"15/03/2030", 1825, 2.75⟩]).bt5y.rate =
          some (2.75 : ℚ) ∧
       (get_standard_maturities [⟨"15/03/2030", 1825, 2.75⟩]).bt10y.rate =
          some (2.75 : ℚ)) :=
  fun h => Option.noConfusion h.1

/-- C2 (amended): when the point set contains exactly one
ObservationPoint, every query returns the explicit absent-rate
indicator (rate none, metadata the insufficient-data error), exactly
as in the empty case; the single point's rate is never returned. -/
theorem single_point_unavailable (p : Point) (target_years : ℚ) :
    (get_rate_for_maturity [p] target_years).rate = none ∧
    (get_rate_for_maturity [p] target_years).metadata =
      Metadata.erreur "Données insuffisantes" :=
  ⟨rfl, rfl⟩

/-- C3 counterexample: on the standard three-point set, the 5-year
query does not return 2.75: its target day count is
int(5 * 365.25) = 1826, which does not land on the 1825-day point. -/
theorem standard_tenors_counterexample :
    (get_standard_maturities
      [⟨"16/03/2027", 730, 2.50⟩, ⟨"15/03/2030", 1825, 2.75⟩,
       ⟨"12/03/2035", 3650, 3.10⟩]).bt5y.rate ≠ some (2.75 : ℚ) := by
  have ht : (get_standard_maturities
      [⟨"16/03/2027", 730, 2.50⟩, ⟨"15/03/2030", 1825, 2.75⟩,
       ⟨"12/03/2035", 3650, 3.10⟩]).bt5y.rate =
      (linear_interpolation
        [⟨"16/03/2027", 730, 2.50⟩, ⟨"15/03/2030", 1825, 2.75⟩,
         ⟨"12/03/2035", 3650, 3.10⟩] 1826).1 := by
    simp only [get_standard_maturities, get_rate_for_maturity, pyIntTrunc_5y]
  have hv : pyRound 4 (interpValue 1826 ⟨"15/03/2030", 1825, 2.75⟩
      ⟨"12/03/2035", 3650, 3.10⟩) = 2.7502 := by
    norm_num [pyRound, roundHalfEven, interpValue]
  rw [ht,
    show (linear_interpolation
        [⟨"16/03/2027", 730, 2.50⟩, ⟨"15/03/2030", 1825, 2.75⟩,
         ⟨"12/03/2035", 3650, 3.10⟩] 1826).1 =
      some (pyRound 4 (interpValue 1826 ⟨"15/03/2030", 1825, 2.75⟩
        ⟨"12/03/2035", 3650, 3.10⟩)) from rfl,
    hv]
  simp only [ne_eq, Option.some.injEq]
  norm_num

/-- C3 (amended): on the standard three-point set, BT2Y returns 2.50
(its target 730 lands on the first point and is clamped there), BT10Y
returns 3.10 (its target 3652 exceeds the last day count 3650 and is
clamped there), but BT5Y's target is 1826 — one day past the 1825-day
point — so it returns the interpolated 2.7502, not 2.75. -/
theorem standard_tenors_values :
    get_standard_maturities
      [⟨"16/03/2027", 730, 2.50⟩, ⟨"15/03/2030", 1825, 2.75⟩,
       ⟨"12/03/2035", 3650, 3.10⟩] =
    ⟨⟨2, 730, some 2.50, Metadata.premiereEcheance "16/03/2027" 730⟩,
     ⟨5, 1826, some 2.7502,
      Metadata.interpolationLineaire "15/03/2030" "12/03/2035"
        2.75 3.10 1825 3650 1826⟩,
     ⟨10, 3652, some 3.10, Metadata.derniereEcheance "12/03/2035" 3650⟩⟩ := by
  have hv : pyRound 4 (interpValue 1826 ⟨"15/03/2030", 1825, 2.75⟩
      ⟨"12/03/2035", 3650, 3.10⟩) = 2.7502 := by
    norm_num [pyRound, roundHalfEven, interpValue]
  simp only [get_standard_maturities, get_rate_for_maturity,
    pyIntTrunc_2y, pyIntTrunc_5y, pyIntTrunc_10y]
  rw [show (linear_interpolation
        [⟨"16/03/2027", 730, 2.50⟩, ⟨"15/03/2030", 1825, 2.75⟩,
         ⟨"12/03/2035", 3650, 3.10⟩] 1826) =
      (some (pyRound 4 (interpValue 1826 ⟨"15/03/2030", 1825, 2.75⟩
          ⟨"12/03/2035", 3650, 3.10⟩)),
       Metadata.interpolationLineaire "15/03/2030" "12/03/2035"
         2.75 3.10 1825 3650 1826) from rfl,
    hv]
  rfl

/-- C5 counterexample: a CSV whose two data rows carry the same
maturity date produces two points with the same day count — the
ingestion of load_from_csv sorts but never deduplicates. -/
theorem duplicate_days_kept :
    ¬ List.Nodup ((load_from_csv ⟨2026, 3, 1⟩
      "Date;Tx;Taux;Dv\n;;;\n16/03/2026;1;2,210 %;x\n16/03/2026;2;2,300 %;x").map
        Point.days) := by
  decide

/-- C5 (amended): after ingestion of any raw CSV content the working
point set is sorted ascending by daysToMaturity, but duplicate
daysToMaturity values are NOT removed: every occurrence is kept, in
scrape order, as the concrete duplicate-date CSV shows. -/
theorem loaded_curve_sorted_duplicates_kept :
    (∀ (reference_date : PyDate) (csv_content : String),
      List.Sorted (fun a b : Point => a.days ≤ b.days)
        (load_from_csv reference_date csv_content)) ∧
    load_from_csv ⟨2026, 3, 1⟩
        "Date;Tx;Taux;Dv\n;;;\n16/03/2026;1;2,210 %;x\n16/03/2026;2;2,300 %;x" =
      [⟨"16/03/2026", 15, 2.21⟩, ⟨"16/03/2026", 15, 2.3⟩] := by
  constructor
  · intro reference_date csv_content
    exact sorted_foldl_insert _ [] List.sorted_nil
  · rw [show load_from_csv ⟨2026, 3, 1⟩
        "Date;Tx;Taux;Dv\n;;;\n16/03/2026;1;2,210 %;x\n16/03/2026;2;2,300 %;x" =
        [⟨"16/03/2026", 15, FloatParts.value ⟨false, 2, 210, 3, false, 0⟩⟩,
         ⟨"16/03/2026", 15, FloatParts.value ⟨false, 2, 300, 3, false, 0⟩⟩]
      from rfl,
      show FloatParts.value ⟨false, 2, 210, 3, false, 0⟩ = 2.21 by
        norm_num [FloatParts.value],
      show FloatParts.value ⟨false, 2, 300, 3, false, 0⟩ = 2.3 by
        norm_num [FloatParts.value]]

/-- C6: with an empty point set, each of the three standard queries
returns the explicit absent rate none with the insufficient-data
error metadata — no number is fabricated, and in this total model
nothing is thrown: the guard of lines 143-144 returns the error dict
instead. -/
theorem empty_curve_unavailable :
    get_standard_maturities [] =
      ⟨⟨2, 730, none, Metadata.erreur "Données insuffisantes"⟩,
       ⟨5, 1826, none, Metadata.erreur "Données insuffisantes"⟩,
       ⟨10, 3652, none, Metadata.erreur "Données insuffisantes"⟩⟩ := by
  simp only [get_standard_maturities, get_rate_for_maturity,
    pyIntTrunc_2y, pyIntTrunc_5y, pyIntTrunc_10y]
  rfl

/-- C8: for every positive targetYears, the query's targetDays is
int(targetYears * 365.25), which on positive values is exactly
floor(targetYears * 365.25): the fixed 365.25 days-per-year convention
truncated to a whole day count. -/
theorem target_days_convention (data : List Point) (target_years : ℚ)
    (hy : 0 < target_years) :
    (get_rate_for_maturity data target_years).target_days =
      ⌊target_years * (365.25 : ℚ)⌋ := by
  show pyIntTrunc (target_years * (365.25 : ℚ)) = _
  exact pyIntTrunc_eq_floor _ (mul_nonneg hy.le (by norm_num))

theorem target_days_convention_witness :
    (get_rate_for_maturity [] 5).target_days = ⌊(5 : ℚ) * 365.25⌋ ∧
    ⌊(5 : ℚ) * 365.25⌋ = 1826 :=
  ⟨target_days_convention [] 5 (by norm_num), by norm_num⟩

/-- C9: ingestion never aborts on a malformed data row.  In this total
model of load_from_csv: every kept point has a nonnegative day count
(matured rows dropped); the comma-decimal rate with trailing percent
sign "2,210 %" is normalized and parsed as the number 2.210; and a
CSV mixing an unparseable-date row and a non-numeric-rate row with one
good row yields exactly the good row's point. -/
theorem malformed_rows_dropped :
    (∀ (reference_date : PyDate) (csv_content : String) (p : Point),
        p ∈ load_from_csv reference_date csv_content → 0 ≤ p.days) ∧
    parse_rate "2,210 %".toList = some (2.21 : ℚ) ∧
    load_from_csv ⟨2026, 3, 1⟩
        "Date;Tx;Taux;Dv\n;;;\n16-03-2026;1;2,210 %;x\n16/03/2026;2;taux;x\n16/03/2026;3;2,210 %;x" =
      [⟨"16/03/2026", 15, 2.21⟩] := by
  refine ⟨?_, ?_, ?_⟩
  · intro reference_date csv_content p hp
    have h2 : p ∈ (((splitOnChar '\n'
        (pyStrip csv_content.toList)).drop 2).filterMap
          (parse_line reference_date)) := by
      have h3 := (mem_foldl_insert (((splitOnChar '\n'
        (pyStrip csv_content.toList)).drop 2).filterMap
          (parse_line reference_date)) [] p).mp hp
      simpa using h3
    obtain ⟨raw, _hraw, hparse⟩ := List.mem_filterMap.mp h2
    exact parse_line_days_nonneg reference_date raw p hparse
  · rw [show parse_rate "2,210 %".toList =
        some (FloatParts.value ⟨false, 2, 210, 3, false, 0⟩) from rfl,
      show FloatParts.value ⟨false, 2, 210, 3, false, 0⟩ = 2.21 by
        norm_num [FloatParts.value]]
  · rw [show load_from_csv ⟨2026, 3, 1⟩
        "Date;Tx;Taux;Dv\n;;;\n16-03-2026;1;2,210 %;x\n16/03/2026;2;taux;x\n16/03/2026;3;2,210 %;x" =
        [⟨"16/03/2026", 15, FloatParts.value ⟨false, 2, 210, 3, false, 0⟩⟩]
      from rfl,
      show FloatParts.value ⟨false, 2, 210, 3, false, 0⟩ = 2.21 by
        norm_num [FloatParts.value]]

theorem malformed_rows_dropped_witness :
    (0 : ℤ) ≤ (Point.mk "16/03/2026" 15
      (FloatParts.value ⟨false, 2, 210, 3, false, 0⟩)).days :=
  malformed_rows_dropped.1 ⟨2026, 3, 1⟩
    "Date;Tx;Taux;Dv\n;;;\n16-03-2026;1;2,210 %;x\n16/03/2026;2;taux;x\n16/03/2026;3;2,210 %;x"
    _ (List.mem_singleton_self _)

/-- C10: the three standard queries are pure: run in sequence with the
state threaded through, they leave the point set unchanged, each
result coincides with the query evaluated independently on the
original set, and re-running a query on the state left by itself
returns the identical result and the original state. -/
theorem queries_pure_and_deterministic (s : List Point) :
    (get_standard_maturities_st s).2 = s ∧
    (get_standard_maturities_st s).1 =
      [("BT2Y", get_rate_for_maturity s 2),
       ("BT5Y", get_rate_for_maturity s 5),
       ("BT10Y", get_rate_for_maturity s 10)] ∧
    ∀ target_years : ℚ,
      (get_rate_for_maturity_st
          (get_rate_for_maturity_st s target_years).2 target_years).1 =
        (get_rate_for_maturity_st s target_years).1 ∧
      (get_rate_for_maturity_st
          (get_rate_for_maturity_st s target_years).2 target_years).2 = s :=
  ⟨rfl, rfl, fun _ => ⟨rfl, rfl⟩⟩


/-- C4 counterexample: at target 731 between the points (730, 2.5) and
(1825, 2.75), the code returns 2.5002 — the value of the linear
formula rounded to 4 decimal places — whereas rounding the formula to
3 decimal places as claimed would give 2.500. -/
theorem interpolation_round3_counterexample :
    (linear_interpolation [⟨"a", 730, 2.5⟩, ⟨"b", 1825, 2.75⟩] 731).1 ≠
      some (pyRound 3 ((2.5 : ℚ) +
        (((731 : ℤ) : ℚ) - ((730 : ℤ) : ℚ)) * ((2.75 : ℚ) - (2.5 : ℚ)) /
          (((1825 : ℤ) : ℚ) - ((730 : ℤ) : ℚ)))) := by
  rw [show (linear_interpolation [⟨"a", 730, 2.5⟩, ⟨"b", 1825, 2.75⟩] 731).1 =
        some (pyRound 4 (interpValue 731 ⟨"a", 730, 2.5⟩ ⟨"b", 1825, 2.75⟩))
      from rfl,
      show pyRound 4 (interpValue 731 ⟨"a", 730, 2.5⟩ ⟨"b", 1825, 2.75⟩) =
        2.5002 by norm_num [pyRound, roundHalfEven, interpValue],
      show pyRound 3 ((2.5 : ℚ) +
          (((731 : ℤ) : ℚ) - ((730 : ℤ) : ℚ)) * ((2.75 : ℚ) - (2.5 : ℚ)) /
            (((1825 : ℤ) : ℚ) - ((730 : ℤ) : ℚ))) = 2.5 by
        norm_num [pyRound, roundHalfEven]]
  simp only [ne_eq, Option.some.injEq]
  norm_num

theorem single_point_unavailable_witness :
    (get_rate_for_maturity [⟨"15/03/2030", 1825, 2.75⟩] 2).rate = none ∧
    (get_rate_for_maturity [⟨"15/03/2030", 1825, 2.75⟩] 2).metadata =
      Metadata.erreur "Données insuffisantes" :=
  single_point_unavailable ⟨"15/03/2030", 1825, 2.75⟩ 2

theorem queries_pure_and_deterministic_witness :
    (get_standard_maturities_st [⟨"a", 730, 2.5⟩]).2 = [⟨"a", 730, 2.5⟩] ∧
    (get_standard_maturities_st [⟨"a", 730, 2.5⟩]).1 =
      [("BT2Y", get_rate_for_maturity [⟨"a", 730, 2.5⟩] 2),
       ("BT5Y", get_rate_for_maturity [⟨"a", 730, 2.5⟩] 5),
       ("BT10Y", get_rate_for_maturity [⟨"a", 730, 2.5⟩] 10)] ∧
    (get_rate_for_maturity_st
        (get_rate_for_maturity_st [⟨"a", 730, 2.5⟩] 5).2 5).1 =
      (get_rate_for_maturity_st [⟨"a", 730, 2.5⟩] 5).1 ∧
    (get_rate_for_maturity_st
        (get_rate_for_maturity_st [⟨"a", 730, 2.5⟩] 5).2 5).2 =
      [⟨"a", 730, 2.5⟩] :=
  ⟨(queries_pure_and_deterministic [⟨"a", 730, 2.5⟩]).1,
   (queries_pure_and_deterministic [⟨"a", 730, 2.5⟩]).2.1,
   ((queries_pure_and_deterministic [⟨"a", 730, 2.5⟩]).2.2 5).1,
   ((queries_pure_and_deterministic [⟨"a", 730, 2.5⟩]).2.2 5).2⟩

end BkamTreasuryCurve
